import Mathlib

/-!
Shallow embedding of the Obsidian privacy-screen plugin (`src/main.ts`,
full-featured variant): the settings record and its adjustment operations,
the mask synthesizer (`updateMask` / `createSquareMask`), the overlay
lifecycle (`toggle` / `pauseOverlay` / `resumeOverlay` / `createOverlay` /
`removeOverlay`), cursor and mouse tracking, and the `Object.assign`-based
settings merge performed by `loadSettings`.

JS numbers are modelled as rationals, `Math.floor` as `Int.floor`,
`Math.min` / `Math.max` as `min` / `max`, and the DOM overlay element as an
optional record of the visual properties the plugin writes to it.  The
`domCount` field counts overlay elements currently attached to
`document.body` (incremented by `appendChild`, decremented by `remove`),
so that leaked or duplicated surfaces are observable in the model.
-/

namespace PrivacyScreen

/-- The two spotlight shapes (`type SpotlightShape = 'circle' | 'square'`). -/
inductive SpotlightShape where
  | circle
  | square
deriving DecidableEq, Repr

/-- The two tracking modes (`type TrackingMode = 'cursor' | 'mouse'`). -/
inductive TrackingMode where
  | cursor
  | mouse
deriving DecidableEq, Repr

/-- The `PrivacyScreenSettings` interface of `src/main.ts`. -/
structure PrivacyScreenSettings where
  spotlightWidth : ℚ
  spotlightHeight : ℚ
  horizontalOffset : ℚ
  blurIntensity : ℚ
  featherEdge : ℚ
  spotlightShape : SpotlightShape
  squareRoundness : ℚ
  previewCursorBlink : Bool
  wasActive : Bool
  trackingMode : TrackingMode
deriving DecidableEq, Repr

/-- The compiled-in `DEFAULT_SETTINGS` constant. -/
def DEFAULT_SETTINGS : PrivacyScreenSettings where
  spotlightWidth := 200
  spotlightHeight := 100
  horizontalOffset := 0
  blurIntensity := 8
  featherEdge := 50
  spotlightShape := SpotlightShape.circle
  squareRoundness := 20
  previewCursorBlink := true
  wasActive := false
  trackingMode := TrackingMode.cursor

/-- JavaScript `Math.floor`, returning a number again. -/
def jsFloor (q : ℚ) : ℚ := (⌊q⌋ : ℚ)

/-- The three keys `adjustSetting` may receive. -/
inductive AdjustKey where
  | spotlightWidth
  | spotlightHeight
  | blurIntensity
deriving DecidableEq, Repr

/-- Reading `this.settings[key]` for an `AdjustKey`. -/
def AdjustKey.get (s : PrivacyScreenSettings) : AdjustKey → ℚ
  | .spotlightWidth => s.spotlightWidth
  | .spotlightHeight => s.spotlightHeight
  | .blurIntensity => s.blurIntensity

/-- Writing `this.settings[key] = v` for an `AdjustKey`. -/
def AdjustKey.put (s : PrivacyScreenSettings) : AdjustKey → ℚ → PrivacyScreenSettings
  | .spotlightWidth, v => { s with spotlightWidth := v }
  | .spotlightHeight, v => { s with spotlightHeight := v }
  | .blurIntensity, v => { s with blurIntensity := v }

/-- `adjustSetting(key, delta, min, max)`: clamps `settings[key] + delta`
into `[min, max]` and stores it.  It touches no other field. -/
def adjustSetting (s : PrivacyScreenSettings) (key : AdjustKey) (delta mn mx : ℚ) :
    PrivacyScreenSettings :=
  AdjustKey.put s key (max mn (min mx (AdjustKey.get s key + delta)))

/-- `adjustOffset(delta)`: clamps `horizontalOffset + delta` into
`[-(floor(width/2) - 5), floor(width/2) - 5]`. -/
def adjustOffset (s : PrivacyScreenSettings) (delta : ℚ) : PrivacyScreenSettings :=
  let maxOffset := jsFloor (s.spotlightWidth / 2) - 5
  { s with horizontalOffset := max (-maxOffset) (min maxOffset (s.horizontalOffset + delta)) }

/-- The width slider's `onChange` handler in `PrivacyScreenSettingTab.display`:
stores the new width, then re-clamps `horizontalOffset` into the new
`[-(floor(value/2) - 5), floor(value/2) - 5]` range. -/
def widthSliderOnChange (s : PrivacyScreenSettings) (value : ℚ) : PrivacyScreenSettings :=
  let s1 := { s with spotlightWidth := value }
  let maxOffset := jsFloor (value / 2) - 5
  if s1.horizontalOffset > maxOffset then { s1 with horizontalOffset := maxOffset }
  else if s1.horizontalOffset < -maxOffset then { s1 with horizontalOffset := -maxOffset }
  else s1

/-- One `radial-gradient(ellipse rx ry at cx cy, ...)` of the circle mask. -/
structure RadialGradient where
  rx : ℚ
  ry : ℚ
  cx : ℚ
  cy : ℚ
deriving DecidableEq, Repr

/-- The numeric attributes interpolated into the SVG string built by
`createSquareMask`: the inner `rect` (`x`, `y`, `width`, `height`, `rx`)
and the outer faded `rect`. -/
structure SquareMaskParams where
  left : ℚ
  top : ℚ
  width : ℚ
  height : ℚ
  rx : ℚ
  outerLeft : ℚ
  outerTop : ℚ
  outerWidth : ℚ
  outerHeight : ℚ
  outerRx : ℚ
deriving DecidableEq, Repr

/-- The mask-image descriptor `updateMask` writes to the overlay element:
either the two-gradient circle mask or the SVG rounded-square mask. -/
inductive MaskDescriptor where
  | circle (inner outer : RadialGradient)
  | square (p : SquareMaskParams)
deriving DecidableEq, Repr

/-- Horizontal center of the region a mask descriptor leaves clear. -/
def MaskDescriptor.centerX : MaskDescriptor → ℚ
  | .circle inner _ => inner.cx
  | .square p => p.left + p.width / 2

/-- Vertical center of the region a mask descriptor leaves clear. -/
def MaskDescriptor.centerY : MaskDescriptor → ℚ
  | .circle inner _ => inner.cy
  | .square p => p.top + p.height / 2

/-- `createSquareMask(cx, cy, width, height, roundness, feather)`:
computes the geometry of the two nested rounded rectangles of the SVG mask. -/
def createSquareMask (cx cy width height roundness feather : ℚ) : SquareMaskParams :=
  let left := cx - width / 2
  let top := cy - height / 2
  { left := left
    top := top
    width := width
    height := height
    rx := roundness
    outerLeft := left - feather
    outerTop := top - feather
    outerWidth := width + feather * 2
    outerHeight := height + feather * 2
    outerRx := roundness + feather }

/-- The overlay DOM element's mutable visual properties: the
`--blur-intensity` custom property and the current `maskImage`. -/
structure OverlayEl where
  blurProp : Option ℚ
  maskImage : Option MaskDescriptor
deriving DecidableEq, Repr

/-- The caret bounding box returned by `editorView.coordsAtPos`. -/
structure CaretCoords where
  left : ℚ
  top : ℚ
  right : ℚ
  bottom : ℚ
deriving DecidableEq, Repr

/-- The external editor environment `trackCursor` consults: whether an
active `MarkdownView` exists, whether its CM6 `editorView` is available,
and the caret coordinates (if any). -/
structure Env where
  activeMarkdownView : Bool
  editorView : Bool
  coords : Option CaretCoords
deriving DecidableEq, Repr

/-- The mutable fields of `PrivacyScreenPlugin` plus the persisted record
(`savedData`, written by `saveData`) and the number of overlay elements
attached to `document.body` (`domCount`). -/
structure PluginState where
  settings : PrivacyScreenSettings
  overlayEl : Option OverlayEl
  isActive : Bool
  wasActiveBeforePause : Bool
  currentX : ℚ
  currentY : ℚ
  savedData : Option PrivacyScreenSettings
  domCount : ℕ
deriving DecidableEq, Repr

/-- `updateMask()`: if an overlay element exists, recompute the mask
descriptor from the settings and the stored position and write it to the
element.  Both shapes center on `(currentX + horizontalOffset, currentY)`. -/
def updateMask (st : PluginState) : PluginState :=
  match st.overlayEl with
  | none => st
  | some el =>
    let s := st.settings
    let x := st.currentX + s.horizontalOffset
    let y := st.currentY
    let rx := s.spotlightWidth / 2
    let ry := s.spotlightHeight / 2
    let maskImage : MaskDescriptor :=
      match s.spotlightShape with
      | .square =>
        let minDimension := min rx ry
        let roundness := s.squareRoundness / 100 * minDimension
        .square (createSquareMask x y s.spotlightWidth s.spotlightHeight roundness s.featherEdge)
      | .circle =>
        .circle { rx := rx, ry := ry, cx := x, cy := y }
          { rx := rx + s.featherEdge, ry := ry + s.featherEdge, cx := x, cy := y }
    { st with overlayEl := some { el with maskImage := some maskImage } }

/-- `applySettings()`: if an overlay element exists, set its blur custom
property and re-run `updateMask`. -/
def applySettings (st : PluginState) : PluginState :=
  match st.overlayEl with
  | none => st
  | some el =>
    updateMask { st with overlayEl := some { el with blurProp := some st.settings.blurIntensity } }

/-- `saveSettings()`: persist the settings via `saveData`, then
`applySettings`. -/
def saveSettings (st : PluginState) : PluginState :=
  applySettings { st with savedData := some st.settings }

/-- `updateSpotlightPosition(x, y)`: store the position and recompute the
mask. -/
def updateSpotlightPosition (st : PluginState) (x y : ℚ) : PluginState :=
  updateMask { st with currentX := x, currentY := y }

/-- `trackCursor()`: bail out when inactive or when any stage of the
cursor lookup fails; otherwise move the spotlight to
`(coords.left, (coords.top + coords.bottom) / 2)`. -/
def trackCursor (env : Env) (st : PluginState) : PluginState :=
  if !st.isActive then st
  else if !env.activeMarkdownView then st
  else if !env.editorView then st
  else
    match env.coords with
    | none => st
    | some coords =>
      let centerY := (coords.top + coords.bottom) / 2
      updateSpotlightPosition st coords.left centerY

/-- `createOverlay()`: create a fresh element, append it to the body,
then `applySettings` and `trackCursor`. -/
def createOverlay (env : Env) (st : PluginState) : PluginState :=
  let st1 := { st with
    overlayEl := some { blurProp := none, maskImage := none }
    domCount := st.domCount + 1 }
  trackCursor env (applySettings st1)

/-- `removeOverlay()`: if an element exists, detach it from the body and
null the reference. -/
def removeOverlay (st : PluginState) : PluginState :=
  match st.overlayEl with
  | none => st
  | some _ => { st with overlayEl := none, domCount := st.domCount - 1 }

/-- `toggle()`: create or remove the overlay, flip `isActive`, record it
in `settings.wasActive`, and save. -/
def toggle (env : Env) (st : PluginState) : PluginState :=
  let st1 := if st.isActive then removeOverlay st else createOverlay env st
  let st2 := { st1 with isActive := !st1.isActive }
  let st3 := { st2 with settings := { st2.settings with wasActive := st2.isActive } }
  saveSettings st3

/-- `resetSettings()`: replace the settings with a copy of
`DEFAULT_SETTINGS`, then save. -/
def resetSettings (st : PluginState) : PluginState :=
  saveSettings { st with settings := DEFAULT_SETTINGS }

/-- `toggleTrackingMode()`: flip between cursor and mouse tracking, then
save. -/
def toggleTrackingMode (st : PluginState) : PluginState :=
  let mode :=
    if st.settings.trackingMode = TrackingMode.cursor then TrackingMode.mouse
    else TrackingMode.cursor
  saveSettings { st with settings := { st.settings with trackingMode := mode } }

/-- `pauseOverlay()`: store the current activeness, then (when active)
remove the surface and become inactive. -/
def pauseOverlay (st : PluginState) : PluginState :=
  let st1 := { st with wasActiveBeforePause := st.isActive }
  if st1.isActive then { removeOverlay st1 with isActive := false } else st1

/-- `resumeOverlay()`: when paused away from an active overlay, recreate
the surface and become active again. -/
def resumeOverlay (env : Env) (st : PluginState) : PluginState :=
  if st.wasActiveBeforePause && !st.isActive then
    { createOverlay env st with isActive := true }
  else st

/-- The `mousemove` handler registered in `onload`: while active in mouse
mode, move the spotlight to the raw pointer coordinates. -/
def onMousemove (st : PluginState) (clientX clientY : ℚ) : PluginState :=
  if st.isActive = true ∧ st.settings.trackingMode = TrackingMode.mouse then
    updateSpotlightPosition st clientX clientY
  else st

/-- The state right after `onload`: fresh fields, then the
restore-from-last-session step (`if (settings.wasActive) { createOverlay();
isActive = true; }`). -/
def initState (env : Env) (s : PrivacyScreenSettings) : PluginState :=
  let st : PluginState :=
    { settings := s
      overlayEl := none
      isActive := false
      wasActiveBeforePause := false
      currentX := 0
      currentY := 0
      savedData := none
      domCount := 0 }
  if s.wasActive then { createOverlay env st with isActive := true } else st

/-- The external events that drive the overlay lifecycle. -/
inductive Event where
  | toggle (env : Env)
  | pause
  | resume (env : Env)
  | track (env : Env)
  | mousemove (x y : ℚ)

/-- Dispatch one event to the corresponding plugin method. -/
def step (st : PluginState) : Event → PluginState
  | .toggle env => toggle env st
  | .pause => pauseOverlay st
  | .resume env => resumeOverlay env st
  | .track env => trackCursor env st
  | .mousemove x y => onMousemove st x y

/-- Run a sequence of events from a state. -/
def run (st : PluginState) (es : List Event) : PluginState := es.foldl step st

/-- The lifecycle invariant: the overlay reference is non-null exactly
when the controller is active, and exactly that many overlay elements are
attached to the document. -/
def SurfaceInv (st : PluginState) : Prop :=
  st.overlayEl.isSome = st.isActive ∧ st.domCount = (if st.isActive then 1 else 0)

/-- A JSON-ish value stored under one key of the persisted record. -/
inductive JSVal where
  | num (q : ℚ)
  | bool (b : Bool)
  | str (s : String)
deriving DecidableEq, Repr

/-- A JavaScript object as an ordered list of own enumerable properties. -/
abbrev JSRecord := List (String × JSVal)

/-- Property assignment `obj[k] = v`: overwrite an existing key in place,
or append a new one. -/
def setProp : JSRecord → String → JSVal → JSRecord
  | [], k, v => [(k, v)]
  | (k1, v1) :: rest, k, v =>
    if k1 = k then (k1, v) :: rest else (k1, v1) :: setProp rest k v

/-- `Object.assign(target, source)`: copy every own enumerable property of
`source` onto `target`, in order. -/
def objectAssign (target : JSRecord) (source : JSRecord) : JSRecord :=
  source.foldl (fun acc kv => setProp acc kv.1 kv.2) target

/-- `DEFAULT_SETTINGS` viewed as the property record `Object.assign`
starts from in `loadSettings`. -/
def DEFAULT_SETTINGS_record : JSRecord :=
  [("spotlightWidth", JSVal.num 200),
   ("spotlightHeight", JSVal.num 100),
   ("horizontalOffset", JSVal.num 0),
   ("blurIntensity", JSVal.num 8),
   ("featherEdge", JSVal.num 50),
   ("spotlightShape", JSVal.str "circle"),
   ("squareRoundness", JSVal.num 20),
   ("previewCursorBlink", JSVal.bool true),
   ("wasActive", JSVal.bool false),
   ("trackingMode", JSVal.str "cursor")]

/-- `loadSettings()`:
`this.settings = Object.assign({}, DEFAULT_SETTINGS, await this.loadData())`. -/
def loadSettings (data : JSRecord) : JSRecord :=
  objectAssign DEFAULT_SETTINGS_record data

/-- Center of the clear region of the mask currently on the overlay
element, when both exist. -/
def maskCenter (st : PluginState) : Option (ℚ × ℚ) :=
  st.overlayEl.bind fun el => el.maskImage.map fun m => (m.centerX, m.centerY)

/-- A settings record with width 90 and offset 40 (both reachable through
the sliders; the offset bound at width 90 is `floor(90/2) - 5 = 40`). -/
def c1Settings : PrivacyScreenSettings :=
  { DEFAULT_SETTINGS with spotlightWidth := 90, horizontalOffset := 40 }

/-- A bare overlay element as `createOverlay` makes it. -/
def c2El : OverlayEl := { blurProp := none, maskImage := none }

/-- An active plugin in mouse-tracking mode with horizontal offset 10. -/
def c2State : PluginState :=
  { settings := { DEFAULT_SETTINGS with horizontalOffset := 10, trackingMode := TrackingMode.mouse }
    overlayEl := some c2El
    isActive := true
    wasActiveBeforePause := false
    currentX := 0
    currentY := 0
    savedData := none
    domCount := 1 }

/-- A concrete caret bounding box. -/
def c2Coords : CaretCoords := { left := 30, top := 40, right := 38, bottom := 60 }

/-- An editor environment whose caret resolves to a concrete box. -/
def c2Env : Env :=
  { activeMarkdownView := true, editorView := true, coords := some c2Coords }

/-- An active plugin with one overlay surface attached. -/
def c3Active : PluginState :=
  { settings := DEFAULT_SETTINGS
    overlayEl := some { blurProp := none, maskImage := none }
    isActive := true
    wasActiveBeforePause := false
    currentX := 0
    currentY := 0
    savedData := none
    domCount := 1 }

/-- An environment with no markdown view at all. -/
def c3Env : Env := { activeMarkdownView := false, editorView := false, coords := none }

/-- An overlay element for the circle-mask witness. -/
def c5El : OverlayEl := { blurProp := none, maskImage := none }

/-- An active circle-shape plugin at position (7, 3). -/
def c5State : PluginState :=
  { settings := DEFAULT_SETTINGS
    overlayEl := some c5El
    isActive := true
    wasActiveBeforePause := false
    currentX := 7
    currentY := 3
    savedData := none
    domCount := 1 }

/-- An overlay element for the square-mask witness. -/
def c6El : OverlayEl := { blurProp := none, maskImage := none }

/-- An active square-shape plugin at position (7, 3). -/
def c6State : PluginState :=
  { settings := { DEFAULT_SETTINGS with spotlightShape := SpotlightShape.square }
    overlayEl := some c6El
    isActive := true
    wasActiveBeforePause := false
    currentX := 7
    currentY := 3
    savedData := none
    domCount := 1 }

/-- An environment where a view and editor exist but the caret has no
coordinates. -/
def c8Env : Env := { activeMarkdownView := true, editorView := true, coords := none }

/-- An active plugin at stored position (5, 6) for the no-update witness. -/
def c8State : PluginState :=
  { settings := DEFAULT_SETTINGS
    overlayEl := some { blurProp := some 8, maskImage := none }
    isActive := true
    wasActiveBeforePause := false
    currentX := 5
    currentY := 6
    savedData := none
    domCount := 1 }

/-! Helper lemmas: which fields each plugin method leaves untouched. -/

/-- Floors of integer casts compute. -/
theorem jsFloor_intCast (z : ℤ) : jsFloor ((z : ℤ) : ℚ) = (z : ℚ) := by
  simp [jsFloor]

theorem updateMask_frame (st : PluginState) :
    (updateMask st).settings = st.settings ∧
    (updateMask st).isActive = st.isActive ∧
    (updateMask st).wasActiveBeforePause = st.wasActiveBeforePause ∧
    (updateMask st).currentX = st.currentX ∧
    (updateMask st).currentY = st.currentY ∧
    (updateMask st).savedData = st.savedData ∧
    (updateMask st).domCount = st.domCount ∧
    (updateMask st).overlayEl.isSome = st.overlayEl.isSome := by
  unfold updateMask
  rcases h : st.overlayEl with _ | el <;> simp [h]

theorem applySettings_frame (st : PluginState) :
    (applySettings st).settings = st.settings ∧
    (applySettings st).isActive = st.isActive ∧
    (applySettings st).wasActiveBeforePause = st.wasActiveBeforePause ∧
    (applySettings st).currentX = st.currentX ∧
    (applySettings st).currentY = st.currentY ∧
    (applySettings st).savedData = st.savedData ∧
    (applySettings st).domCount = st.domCount ∧
    (applySettings st).overlayEl.isSome = st.overlayEl.isSome := by
  unfold applySettings
  rcases h : st.overlayEl with _ | el <;> simp [h, updateMask_frame]

theorem saveSettings_frame (st : PluginState) :
    (saveSettings st).settings = st.settings ∧
    (saveSettings st).isActive = st.isActive ∧
    (saveSettings st).wasActiveBeforePause = st.wasActiveBeforePause ∧
    (saveSettings st).currentX = st.currentX ∧
    (saveSettings st).currentY = st.currentY ∧
    (saveSettings st).savedData = some st.settings ∧
    (saveSettings st).domCount = st.domCount ∧
    (saveSettings st).overlayEl.isSome = st.overlayEl.isSome := by
  unfold saveSettings
  simp [applySettings_frame]

theorem updateSpotlightPosition_lifecycle (st : PluginState) (x y : ℚ) :
    (updateSpotlightPosition st x y).settings = st.settings ∧
    (updateSpotlightPosition st x y).isActive = st.isActive ∧
    (updateSpotlightPosition st x y).wasActiveBeforePause = st.wasActiveBeforePause ∧
    (updateSpotlightPosition st x y).savedData = st.savedData ∧
    (updateSpotlightPosition st x y).domCount = st.domCount ∧
    (updateSpotlightPosition st x y).overlayEl.isSome = st.overlayEl.isSome := by
  unfold updateSpotlightPosition
  simp [updateMask_frame]

theorem trackCursor_lifecycle (env : Env) (st : PluginState) :
    (trackCursor env st).settings = st.settings ∧
    (trackCursor env st).isActive = st.isActive ∧
    (trackCursor env st).wasActiveBeforePause = st.wasActiveBeforePause ∧
    (trackCursor env st).savedData = st.savedData ∧
    (trackCursor env st).domCount = st.domCount ∧
    (trackCursor env st).overlayEl.isSome = st.overlayEl.isSome := by
  unfold trackCursor
  rcases ha : st.isActive <;> rcases hv : env.activeMarkdownView <;>
    rcases he : env.editorView <;> rcases hc : env.coords with _ | c <;>
      simp [ha, hv, he, hc, updateSpotlightPosition_lifecycle]

theorem onMousemove_lifecycle (st : PluginState) (x y : ℚ) :
    (onMousemove st x y).settings = st.settings ∧
    (onMousemove st x y).isActive = st.isActive ∧
    (onMousemove st x y).wasActiveBeforePause = st.wasActiveBeforePause ∧
    (onMousemove st x y).savedData = st.savedData ∧
    (onMousemove st x y).domCount = st.domCount ∧
    (onMousemove st x y).overlayEl.isSome = st.overlayEl.isSome := by
  unfold onMousemove
  split <;> simp [updateSpotlightPosition_lifecycle]

theorem createOverlay_lifecycle (env : Env) (st : PluginState) :
    (createOverlay env st).settings = st.settings ∧
    (createOverlay env st).isActive = st.isActive ∧
    (createOverlay env st).wasActiveBeforePause = st.wasActiveBeforePause ∧
    (createOverlay env st).savedData = st.savedData ∧
    (createOverlay env st).overlayEl.isSome = true ∧
    (createOverlay env st).domCount = st.domCount + 1 := by
  unfold createOverlay
  simp [trackCursor_lifecycle, applySettings_frame]

theorem removeOverlay_of_none (st : PluginState) (h : st.overlayEl = none) :
    removeOverlay st = st := by
  simp [removeOverlay, h]

theorem removeOverlay_of_some (st : PluginState) (el : OverlayEl)
    (h : st.overlayEl = some el) :
    removeOverlay st = { st with overlayEl := none, domCount := st.domCount - 1 } := by
  simp [removeOverlay, h]

/-! Preservation of the lifecycle invariant by every event. -/

theorem toggle_inv (env : Env) (st : PluginState) (h : SurfaceInv st) :
    SurfaceInv (toggle env st) := by
  obtain ⟨h1, h2⟩ := h
  unfold toggle
  rcases ha : st.isActive
  · rw [ha] at h1 h2
    simp only [ha, Bool.false_eq_true, if_false, if_neg]
    constructor
    · simp [SurfaceInv, saveSettings_frame, createOverlay_lifecycle, ha]
    · simp [saveSettings_frame, createOverlay_lifecycle, ha, h2]
  · rw [ha] at h1 h2
    obtain ⟨el, hel⟩ := Option.isSome_iff_exists.mp h1
    rw [removeOverlay_of_some st el hel]
    simp only [ha, if_true]
    constructor
    · simp [saveSettings_frame, ha]
    · simp [saveSettings_frame, ha, h2]

theorem pauseOverlay_inv (st : PluginState) (h : SurfaceInv st) :
    SurfaceInv (pauseOverlay st) := by
  obtain ⟨h1, h2⟩ := h
  unfold pauseOverlay
  rcases ha : st.isActive
  · rw [ha] at h1 h2
    simp [SurfaceInv, ha, h1, h2]
  · rw [ha] at h1 h2
    simp only [if_pos] at h2
    obtain ⟨el, hel⟩ := Option.isSome_iff_exists.mp h1
    simp [SurfaceInv, ha, removeOverlay, hel, h2]

theorem resumeOverlay_inv (env : Env) (st : PluginState) (h : SurfaceInv st) :
    SurfaceInv (resumeOverlay env st) := by
  obtain ⟨h1, h2⟩ := h
  unfold resumeOverlay
  rcases hc : st.wasActiveBeforePause && !st.isActive
  · simpa [hc, SurfaceInv] using ⟨h1, h2⟩
  · have ha : st.isActive = false := by
      rcases hb : st.isActive
      · rfl
      · rw [hb] at hc; simp at hc
    rw [ha] at h1 h2
    simp [hc, SurfaceInv, createOverlay_lifecycle, h2]

theorem trackCursor_inv (env : Env) (st : PluginState) (h : SurfaceInv st) :
    SurfaceInv (trackCursor env st) := by
  obtain ⟨h1, h2⟩ := h
  unfold SurfaceInv
  simp only [trackCursor_lifecycle]
  exact ⟨h1, h2⟩

theorem onMousemove_inv (st : PluginState) (x y : ℚ) (h : SurfaceInv st) :
    SurfaceInv (onMousemove st x y) := by
  obtain ⟨h1, h2⟩ := h
  unfold SurfaceInv
  simp only [onMousemove_lifecycle]
  exact ⟨h1, h2⟩

theorem step_inv (st : PluginState) (e : Event) (h : SurfaceInv st) :
    SurfaceInv (step st e) := by
  cases e with
  | toggle env => exact toggle_inv env st h
  | pause => exact pauseOverlay_inv st h
  | resume env => exact resumeOverlay_inv env st h
  | track env => exact trackCursor_inv env st h
  | mousemove x y => exact onMousemove_inv st x y h

theorem initState_inv (env : Env) (s : PrivacyScreenSettings) :
    SurfaceInv (initState env s) := by
  unfold initState
  rcases hw : s.wasActive <;>
    simp [hw, SurfaceInv, createOverlay_lifecycle]

theorem run_inv (es : List Event) (st : PluginState) (h : SurfaceInv st) :
    SurfaceInv (run st es) := by
  induction es generalizing st with
  | nil => simpa [run] using h
  | cons e es ih =>
    rw [run, List.foldl_cons]
    exact ih (step st e) (step_inv st e h)

/-! Lemmas about property assignment and Object.assign on records. -/

theorem lookup_setProp_self (r : JSRecord) (k : String) (v : JSVal) :
    (setProp r k v).lookup k = some v := by
  induction r with
  | nil => simp [setProp, List.lookup]
  | cons kv rest ih =>
    obtain ⟨k1, v1⟩ := kv
    by_cases h : k1 = k
    · subst h
      simp [setProp, List.lookup]
    · have h2 : (k == k1) = false := beq_eq_false_iff_ne.mpr fun e => h e.symm
      simp [setProp, h, h2, List.lookup, ih]

theorem lookup_setProp_of_ne (r : JSRecord) (k q : String) (v : JSVal) (hne : q ≠ k) :
    (setProp r k v).lookup q = r.lookup q := by
  have hb : (q == k) = false := beq_eq_false_iff_ne.mpr hne
  induction r with
  | nil => simp [setProp, List.lookup, hb]
  | cons kv rest ih =>
    obtain ⟨k1, v1⟩ := kv
    by_cases h : k1 = k
    · subst h
      simp [setProp, List.lookup, hb]
    · rcases hq1 : q == k1 <;>
        simp [setProp, h, List.lookup, ih, hq1]

theorem lookup_eq_none_of_not_mem (r : JSRecord) (k : String)
    (h : k ∉ r.map Prod.fst) : r.lookup k = none := by
  induction r with
  | nil => rfl
  | cons kv rest ih =>
    obtain ⟨k1, v1⟩ := kv
    simp only [List.map_cons, List.mem_cons, not_or] at h
    obtain ⟨hk, hrest⟩ := h
    have hb : (k == k1) = false := beq_eq_false_iff_ne.mpr hk
    simp [List.lookup, hb, ih hrest]

theorem lookup_objectAssign (source : JSRecord) (target : JSRecord) (k : String)
    (hnd : (source.map Prod.fst).Nodup) :
    (objectAssign target source).lookup k =
      (source.lookup k).elim (target.lookup k) some := by
  induction source generalizing target with
  | nil => simp [objectAssign, List.lookup]
  | cons kv rest ih =>
    obtain ⟨k0, v0⟩ := kv
    simp only [List.map_cons, List.nodup_cons] at hnd
    obtain ⟨hk0, hrest⟩ := hnd
    have hfold : objectAssign target ((k0, v0) :: rest) =
        objectAssign (setProp target k0 v0) rest := by
      simp [objectAssign]
    rw [hfold, ih (setProp target k0 v0) hrest]
    by_cases hk : k = k0
    · subst hk
      rw [lookup_eq_none_of_not_mem rest k hk0]
      simp [List.lookup, lookup_setProp_self]
    · have hb : (k == k0) = false := beq_eq_false_iff_ne.mpr hk
      simp [List.lookup, hb, lookup_setProp_of_ne target k0 k v0 hk]

/-- Wherever the mask ends up, its clear region is centered at
`(x + horizontalOffset, y)` after `updateSpotlightPosition(x, y)`. -/
theorem maskCenter_updateSpotlightPosition (st : PluginState) (el : OverlayEl) (x y : ℚ)
    (hel : st.overlayEl = some el) :
    maskCenter (updateSpotlightPosition st x y) =
      some (x + st.settings.horizontalOffset, y) := by
  unfold updateSpotlightPosition updateMask maskCenter
  rcases hsh : st.settings.spotlightShape <;>
    simp [hel, hsh, createSquareMask, MaskDescriptor.centerX, MaskDescriptor.centerY]

/-! The claim theorems. -/

/-- Claim C1 (code bug): the claim says every configuration update keeps
`|horizontalOffset| ≤ floor(spotlightWidth/2) − 5`, re-clamping the offset
when the width shrinks.  The decrease-width command
(`adjustSetting('spotlightWidth', -10, 24, 600)`) does not re-clamp: from
the valid settings width = 90, offset = 40 it produces width = 80 with the
offset still 40, above the new bound `floor(80/2) − 5 = 35`. -/
theorem decrease_width_skips_offset_clamp :
    |c1Settings.horizontalOffset| ≤ jsFloor (c1Settings.spotlightWidth / 2) - 5 ∧
    (adjustSetting c1Settings AdjustKey.spotlightWidth (-10) 24 600).spotlightWidth = 80 ∧
    (adjustSetting c1Settings AdjustKey.spotlightWidth (-10) 24 600).horizontalOffset = 40 ∧
    ¬ |(adjustSetting c1Settings AdjustKey.spotlightWidth (-10) 24 600).horizontalOffset| ≤
        jsFloor ((adjustSetting c1Settings AdjustKey.spotlightWidth (-10) 24
          600).spotlightWidth / 2) - 5 := by
  refine ⟨?_, ?_, ?_, ?_⟩
  · have h : c1Settings.spotlightWidth / 2 = ((45 : ℤ) : ℚ) := by
      norm_num [c1Settings, DEFAULT_SETTINGS]
    rw [h, jsFloor_intCast]
    norm_num [c1Settings, DEFAULT_SETTINGS]
  · norm_num [adjustSetting, AdjustKey.get, AdjustKey.put, c1Settings, DEFAULT_SETTINGS,
      min_def, max_def]
  · norm_num [adjustSetting, AdjustKey.get, AdjustKey.put, c1Settings, DEFAULT_SETTINGS,
      min_def, max_def]
  · have h : (adjustSetting c1Settings AdjustKey.spotlightWidth (-10) 24
        600).spotlightWidth / 2 = ((40 : ℤ) : ℚ) := by
      norm_num [adjustSetting, AdjustKey.get, AdjustKey.put, c1Settings, DEFAULT_SETTINGS,
        min_def, max_def]
    rw [h, jsFloor_intCast]
    norm_num [adjustSetting, AdjustKey.get, AdjustKey.put, c1Settings, DEFAULT_SETTINGS,
      min_def, max_def]

/-- Claim C2 counterexample: in mouse mode with `horizontalOffset = 10`,
the pointer event (100, 200) yields a mask centered at (110, 200), not at
the raw pointer position (100, 200) as claimed. -/
theorem mouse_mask_center_not_raw_pointer :
    maskCenter (onMousemove c2State 100 200) = some (110, 200) ∧
    maskCenter (onMousemove c2State 100 200) ≠ some (100, 200) := by
  have h : maskCenter (onMousemove c2State 100 200) = some (110, 200) := by
    norm_num [maskCenter, onMousemove, c2State, c2El, DEFAULT_SETTINGS,
      updateSpotlightPosition, updateMask, MaskDescriptor.centerX, MaskDescriptor.centerY]
  refine ⟨h, ?_⟩
  rw [h]
  intro hcontra
  simp only [Option.some.injEq, Prod.mk.injEq] at hcontra
  have := hcontra.1
  norm_num at this

/-- Claim C2 (amended): both tracking paths store a raw position and
`updateMask` then applies `horizontalOffset` to it — in mouse mode the
mask is centered at `(px + horizontalOffset, py)`, in cursor mode at
`(caretLeft + horizontalOffset, (caretTop + caretBottom)/2)`; the paths
differ only in where the stored position comes from, not in whether the
offset is applied. -/
theorem mask_center_in_both_tracking_modes (st : PluginState) (el : OverlayEl)
    (px py : ℚ) (env : Env) (c : CaretCoords)
    (hel : st.overlayEl = some el) (hact : st.isActive = true)
    (hmode : st.settings.trackingMode = TrackingMode.mouse)
    (hv : env.activeMarkdownView = true) (he : env.editorView = true)
    (hc : env.coords = some c) :
    maskCenter (onMousemove st px py) = some (px + st.settings.horizontalOffset, py) ∧
    maskCenter (trackCursor env st) =
      some (c.left + st.settings.horizontalOffset, (c.top + c.bottom) / 2) := by
  constructor
  · unfold onMousemove
    rw [if_pos ⟨hact, hmode⟩]
    exact maskCenter_updateSpotlightPosition st el px py hel
  · unfold trackCursor
    simp only [hact, hv, he, hc, Bool.not_true, Bool.false_eq_true, if_false]
    exact maskCenter_updateSpotlightPosition st el c.left ((c.top + c.bottom) / 2) hel

/-- Witness for the amended C2 theorem at a concrete state, pointer event
and caret box. -/
theorem mask_center_in_both_tracking_modes_witness :
    maskCenter (onMousemove c2State 100 200) =
      some ((100 : ℚ) + c2State.settings.horizontalOffset, 200) ∧
    maskCenter (trackCursor c2Env c2State) =
      some (c2Coords.left + c2State.settings.horizontalOffset,
        (c2Coords.top + c2Coords.bottom) / 2) :=
  mask_center_in_both_tracking_modes c2State c2El 100 200 c2Env c2Coords
    rfl rfl rfl rfl rfl rfl

/-- Claim C3 (code bug): the claim says pause-then-resume restores the
prior state even when pause is called repeatedly, but a second
`pauseOverlay()` overwrites `wasActiveBeforePause` with the now-false
activeness: from Active, pause(); pause(); resume() ends Inactive with no
surface instead of returning to Active. -/
theorem double_pause_then_resume_stays_inactive :
    c3Active.isActive = true ∧
    (resumeOverlay c3Env (pauseOverlay (pauseOverlay c3Active))).isActive = false ∧
    (resumeOverlay c3Env (pauseOverlay (pauseOverlay c3Active))).overlayEl = none := by
  refine ⟨rfl, by decide, by decide⟩

/-- Claim C4: in every state reachable from plugin load (including the
restore-on-load path) via toggle, pause, resume, cursor tracking and
mouse events, the overlay reference is non-null exactly when the
controller is active, and exactly that many overlay elements are attached
to the document — so at most one surface exists and none is duplicated or
orphaned. -/
theorem reachable_overlay_surface_iff_active (env0 : Env) (s : PrivacyScreenSettings)
    (es : List Event) :
    ((run (initState env0 s) es).overlayEl.isSome = true ↔
      (run (initState env0 s) es).isActive = true) ∧
    (run (initState env0 s) es).domCount =
      (if (run (initState env0 s) es).isActive then 1 else 0) := by
  obtain ⟨h1, h2⟩ := run_inv es (initState env0 s) (initState_inv env0 s)
  exact ⟨by rw [h1], h2⟩

/-- Claim C5: with shape = circle, `updateMask` writes a two-gradient
mask whose inner ellipse has radii exactly (width/2, height/2) and whose
outer ellipse has radii exactly (width/2 + feather, height/2 + feather),
both centered at `(currentX + horizontalOffset, currentY)`. -/
theorem circle_mask_geometry (st : PluginState) (el : OverlayEl)
    (hel : st.overlayEl = some el)
    (hsh : st.settings.spotlightShape = SpotlightShape.circle) :
    (updateMask st).overlayEl = some { el with maskImage := some (MaskDescriptor.circle
      { rx := st.settings.spotlightWidth / 2
        ry := st.settings.spotlightHeight / 2
        cx := st.currentX + st.settings.horizontalOffset
        cy := st.currentY }
      { rx := st.settings.spotlightWidth / 2 + st.settings.featherEdge
        ry := st.settings.spotlightHeight / 2 + st.settings.featherEdge
        cx := st.currentX + st.settings.horizontalOffset
        cy := st.currentY }) } := by
  unfold updateMask
  simp [hel, hsh]

/-- Witness for the C5 theorem at a concrete state. -/
theorem circle_mask_geometry_witness :
    (updateMask c5State).overlayEl = some { c5El with maskImage := some (MaskDescriptor.circle
      { rx := c5State.settings.spotlightWidth / 2
        ry := c5State.settings.spotlightHeight / 2
        cx := c5State.currentX + c5State.settings.horizontalOffset
        cy := c5State.currentY }
      { rx := c5State.settings.spotlightWidth / 2 + c5State.settings.featherEdge
        ry := c5State.settings.spotlightHeight / 2 + c5State.settings.featherEdge
        cx := c5State.currentX + c5State.settings.horizontalOffset
        cy := c5State.currentY }) } :=
  circle_mask_geometry c5State c5El rfl rfl

/-- Claim C6: with shape = square, `updateMask` writes an SVG mask whose
inner corner radius is `(squareRoundness/100) × min(width, height)/2`,
whose outer corner radius is that plus feather, whose inner rect is
exactly width × height centered at `(currentX + horizontalOffset,
currentY)`, whose outer rect is inflated by feather on all sides, and
whose inner corner radius equals `min(width, height)/2` when
squareRoundness = 100. -/
theorem square_mask_geometry (st : PluginState) (el : OverlayEl)
    (hel : st.overlayEl = some el)
    (hsh : st.settings.spotlightShape = SpotlightShape.square) :
    ∃ p : SquareMaskParams,
      (updateMask st).overlayEl =
        some { el with maskImage := some (MaskDescriptor.square p) } ∧
      p.rx = st.settings.squareRoundness / 100 *
        (min st.settings.spotlightWidth st.settings.spotlightHeight / 2) ∧
      p.outerRx = p.rx + st.settings.featherEdge ∧
      p.left = st.currentX + st.settings.horizontalOffset - st.settings.spotlightWidth / 2 ∧
      p.top = st.currentY - st.settings.spotlightHeight / 2 ∧
      p.width = st.settings.spotlightWidth ∧
      p.height = st.settings.spotlightHeight ∧
      p.outerLeft = p.left - st.settings.featherEdge ∧
      p.outerTop = p.top - st.settings.featherEdge ∧
      p.outerWidth = p.width + st.settings.featherEdge * 2 ∧
      p.outerHeight = p.height + st.settings.featherEdge * 2 ∧
      (st.settings.squareRoundness = 100 →
        p.rx = min st.settings.spotlightWidth st.settings.spotlightHeight / 2) := by
  have hmin : min (st.settings.spotlightWidth / 2) (st.settings.spotlightHeight / 2) =
      min st.settings.spotlightWidth st.settings.spotlightHeight / 2 :=
    min_div_div_right (by norm_num) _ _
  refine ⟨createSquareMask (st.currentX + st.settings.horizontalOffset) st.currentY
      st.settings.spotlightWidth st.settings.spotlightHeight
      (st.settings.squareRoundness / 100 *
        min (st.settings.spotlightWidth / 2) (st.settings.spotlightHeight / 2))
      st.settings.featherEdge,
    ?_, ?_, ?_, ?_, ?_, ?_, ?_, ?_, ?_, ?_, ?_, ?_⟩
  · unfold updateMask
    simp [hel, hsh]
  · simp [createSquareMask, hmin]
  · simp [createSquareMask]
  · simp [createSquareMask]
  · simp [createSquareMask]
  · simp [createSquareMask]
  · simp [createSquareMask]
  · simp [createSquareMask]
  · simp [createSquareMask]
  · simp [createSquareMask]
  · simp [createSquareMask]
  · intro h100
    simp [createSquareMask, hmin, h100]

/-- Witness for the C6 theorem at a concrete state. -/
theorem square_mask_geometry_witness :
    ∃ p : SquareMaskParams,
      (updateMask c6State).overlayEl =
        some { c6El with maskImage := some (MaskDescriptor.square p) } ∧
      p.rx = c6State.settings.squareRoundness / 100 *
        (min c6State.settings.spotlightWidth c6State.settings.spotlightHeight / 2) ∧
      p.outerRx = p.rx + c6State.settings.featherEdge ∧
      p.left = c6State.currentX + c6State.settings.horizontalOffset -
        c6State.settings.spotlightWidth / 2 ∧
      p.top = c6State.currentY - c6State.settings.spotlightHeight / 2 ∧
      p.width = c6State.settings.spotlightWidth ∧
      p.height = c6State.settings.spotlightHeight ∧
      p.outerLeft = p.left - c6State.settings.featherEdge ∧
      p.outerTop = p.top - c6State.settings.featherEdge ∧
      p.outerWidth = p.width + c6State.settings.featherEdge * 2 ∧
      p.outerHeight = p.height + c6State.settings.featherEdge * 2 ∧
      (c6State.settings.squareRoundness = 100 →
        p.rx = min c6State.settings.spotlightWidth c6State.settings.spotlightHeight / 2) :=
  square_mask_geometry c6State c6El rfl rfl

/-- Claim C7: `resetSettings` replaces the configuration with the
compiled-in defaults and persists them: width 200, height 100, offset 0,
blur 8, feather 50, shape circle, roundness 20, tracking mode cursor. -/
theorem resetSettings_restores_defaults (st : PluginState) :
    (resetSettings st).settings = DEFAULT_SETTINGS ∧
    (resetSettings st).savedData = some DEFAULT_SETTINGS ∧
    DEFAULT_SETTINGS.spotlightWidth = 200 ∧
    DEFAULT_SETTINGS.spotlightHeight = 100 ∧
    DEFAULT_SETTINGS.horizontalOffset = 0 ∧
    DEFAULT_SETTINGS.blurIntensity = 8 ∧
    DEFAULT_SETTINGS.featherEdge = 50 ∧
    DEFAULT_SETTINGS.spotlightShape = SpotlightShape.circle ∧
    DEFAULT_SETTINGS.squareRoundness = 20 ∧
    DEFAULT_SETTINGS.trackingMode = TrackingMode.cursor := by
  refine ⟨?_, ?_, rfl, rfl, rfl, rfl, rfl, rfl, rfl, rfl⟩ <;>
    simp [resetSettings, saveSettings_frame]

/-- Claim C8: when the cursor target cannot be resolved (no active
markdown view, no editor view, or no caret coordinates), `trackCursor`
returns the state unchanged: the stored position and the last rendered
mask are retained and no update is produced. -/
theorem trackCursor_unresolved_is_noop (env : Env) (st : PluginState)
    (h : env.activeMarkdownView = false ∨ env.editorView = false ∨ env.coords = none) :
    trackCursor env st = st := by
  unfold trackCursor
  rcases h with h | h | h <;> simp [h]

/-- Witness for the C8 theorem: an active plugin with a view and an
editor but no caret coordinates keeps its state. -/
theorem trackCursor_unresolved_is_noop_witness : trackCursor c8Env c8State = c8State :=
  trackCursor_unresolved_is_noop c8Env c8State (Or.inr (Or.inr rfl))

/-- Claim C9 counterexample: a key that is not a field of the settings
record is not absent after loading — `Object.assign` copies it onto the
merged object. -/
theorem loadSettings_unknown_key_retained :
    (loadSettings [("bogus", JSVal.num 1)]).lookup "bogus" = some (JSVal.num 1) ∧
    (loadSettings [("bogus", JSVal.num 1)]).lookup "bogus" ≠ none :=
  ⟨by decide, by decide⟩

/-- Claim C9 (amended): loading merges the persisted record over the
defaults — every key present in the record (whether or not it is a field
of the settings interface) keeps its persisted value, and every key
absent from it falls back to the default; unknown keys are therefore
carried into the merged object rather than dropped. -/
theorem loadSettings_lookup (data : JSRecord) (k : String)
    (hnd : (data.map Prod.fst).Nodup) :
    (loadSettings data).lookup k =
      (data.lookup k).elim (DEFAULT_SETTINGS_record.lookup k) some :=
  lookup_objectAssign data DEFAULT_SETTINGS_record k hnd

/-- Witness for the amended C9 theorem: a persisted width of 300
overrides the default. -/
theorem loadSettings_lookup_witness :
    (loadSettings [("spotlightWidth", JSVal.num 300)]).lookup "spotlightWidth" =
      some (JSVal.num 300) :=
  (loadSettings_lookup [("spotlightWidth", JSVal.num 300)] "spotlightWidth"
    (by decide)).trans (by decide)

/-- Claim C10: `resetSettings` modifies only the settings record — the
overlay lifecycle state (activeness, surface presence and count, stored
position) is unchanged, while the persisted record gets the default
`wasActive = false` even if the overlay is currently active, so an active
overlay stays up but will not be restored on the next start. -/
theorem resetSettings_touches_only_settings (st : PluginState) :
    (resetSettings st).isActive = st.isActive ∧
    (resetSettings st).overlayEl.isSome = st.overlayEl.isSome ∧
    (resetSettings st).domCount = st.domCount ∧
    (resetSettings st).currentX = st.currentX ∧
    (resetSettings st).currentY = st.currentY ∧
    (resetSettings st).settings.wasActive = false ∧
    (resetSettings st).savedData.map PrivacyScreenSettings.wasActive = some false := by
  unfold resetSettings
  simp [saveSettings_frame, DEFAULT_SETTINGS]

end PrivacyScreen
